import Mathlib

/-!
# Verification of the Movie Recommendations Dashboard (`src/app.py`)

A shallow embedding of the core logic of the dashboard: the fetcher
(`get_movies`), the transformer (`clean_movies`), the selector
(`filter_movies` plus the top-level sort dispatch), and the presenter
(`show_charts`, `display_movies_with_posters`).

Modelling conventions:
  * A pandas `DataFrame` of movie rows is a `List` of records; row order of
    the frame is the order of the list.  Filtering (`df[mask]`) preserves
    row order, as in pandas.
  * Python `None` / JSON `null` / pandas `NaN`-in-an-object-column is
    `Option.none`.
  * Python floats (`vote_average`, `popularity`) are modelled as exact
    rationals `Rat`; none of the verified claims depends on floating-point
    rounding, and the API never delivers NaN in these fields.
  * Python strings are Lean `String`s; character-level operations work on
    `String.data` (a `List Char`).
  * `pd.to_datetime(col, errors := coerce)` is modelled by `parseReleaseDate`
    for the catalog's ISO `YYYY-MM-DD` format: a well-formed ISO calendar
    date parses, anything else coerces to `NaT` (`none`).  The verified
    claims about dates are conditional on the parse outcome, so they do not
    depend on the exact accepted language of the lenient parser.
-/

/-- One raw listing record as delivered by the catalog API, restricted to
the columns `clean_movies` selects (line 33 of `app.py`).  Fields that the
API may omit or null are `Option`s. -/
structure RawRecord where
  id : Nat
  title : Option String
  release_date : Option String
  vote_average : Rat
  vote_count : Nat
  popularity : Rat
  genre_ids : Option (List Nat)
  poster_path : Option String
deriving Repr, DecidableEq

/-- A calendar date, the result of a successful `pd.to_datetime` parse. -/
structure Date where
  year : Nat
  month : Nat
  day : Nat
deriving Repr, DecidableEq

/-- The cleaned record produced by `clean_movies` for one raw record. -/
structure MovieRecord where
  id : Nat
  title : Option String
  release_date : Option Date
  year : Option Nat
  vote_average : Rat
  vote_count : Nat
  popularity : Rat
  genre : String
  poster_url : Option String
  tmdb_url : String
deriving Repr, DecidableEq

/-- Gregorian leap-year rule, as used by `pandas.Timestamp` validation. -/
def isLeapYear (y : Nat) : Bool :=
  (y % 4 == 0 && y % 100 != 0) || y % 400 == 0

/-- Days in a month, for calendar validation of parsed dates. -/
def daysInMonth (y m : Nat) : Nat :=
  if m == 2 then (if isLeapYear y then 29 else 28)
  else if m == 4 || m == 6 || m == 9 || m == 11 then 30
  else 31

/-- Numeric value of a digit string (most significant digit first). -/
def digitsToNat (cs : List Char) : Nat :=
  cs.foldl (fun acc c => acc * 10 + (c.toNat - '0'.toNat)) 0

/-- Parse an ISO `YYYY-MM-DD` string into a calendar date; any string not of
that shape, or naming an invalid calendar date, yields `none`.  This is the
model of `pd.to_datetime(s, errors := coerce)` on the catalog's date
strings (lines 34-35 of `app.py`): coercion turns unparsable input into
`NaT`, never an error. -/
def parseDateString (cs : List Char) : Option Date :=
  match cs with
  | [y1, y2, y3, y4, s1, m1, m2, s2, d1, d2] =>
    if s1 == '-' && s2 == '-' && [y1, y2, y3, y4, m1, m2, d1, d2].all Char.isDigit then
      let y := digitsToNat [y1, y2, y3, y4]
      let m := digitsToNat [m1, m2]
      let d := digitsToNat [d1, d2]
      if 1 ≤ m && m ≤ 12 && 1 ≤ d && d ≤ daysInMonth y m then
        some ⟨y, m, d⟩
      else none
    else none
  | _ => none

/-- Lenient date parsing of an optional raw string: an absent string is
`NaT` (`none`), a malformed string coerces to `NaT`. -/
def parseReleaseDate : Option String → Option Date
  | none => none
  | some s => parseDateString s.data

/-- The fixed genre lookup dictionary of `app.py` lines 12-18, embedded as
the lookup function of the Python dict (`genre_map.get`). -/
def genre_map (i : Nat) : Option String :=
  if i = 28 then some "Action"
  else if i = 12 then some "Adventure"
  else if i = 16 then some "Animation"
  else if i = 35 then some "Comedy"
  else if i = 80 then some "Crime"
  else if i = 99 then some "Documentary"
  else if i = 18 then some "Drama"
  else if i = 10751 then some "Family"
  else if i = 14 then some "Fantasy"
  else if i = 36 then some "History"
  else if i = 27 then some "Horror"
  else if i = 10402 then some "Music"
  else if i = 9648 then some "Mystery"
  else if i = 10749 then some "Romance"
  else if i = 878 then some "Science Fiction"
  else if i = 10770 then some "TV Movie"
  else if i = 53 then some "Thriller"
  else if i = 10752 then some "War"
  else if i = 37 then some "Western"
  else none

/-- `genre_map.get(i, 'Unknown')` of `app.py` line 36. -/
def genreGet (i : Nat) : String :=
  (genre_map i).getD "Unknown"

/-- Modelled from the spec (§4.2): the static 19-entry id→name table, as
the spec lists it, with "Unknown" for any id outside the table.  Written
independently of `genre_map` so that agreement between the two is a
theorem, not a definition. -/
def genreLabelSpec (i : Nat) : String :=
  if i = 28 then "Action"
  else if i = 12 then "Adventure"
  else if i = 16 then "Animation"
  else if i = 35 then "Comedy"
  else if i = 80 then "Crime"
  else if i = 99 then "Documentary"
  else if i = 18 then "Drama"
  else if i = 10751 then "Family"
  else if i = 14 then "Fantasy"
  else if i = 36 then "History"
  else if i = 27 then "Horror"
  else if i = 10402 then "Music"
  else if i = 9648 then "Mystery"
  else if i = 10749 then "Romance"
  else if i = 878 then "Science Fiction"
  else if i = 10770 then "TV Movie"
  else if i = 53 then "Thriller"
  else if i = 10752 then "War"
  else if i = 37 then "Western"
  else "Unknown"

/-- The per-row work of `clean_movies` (`app.py` lines 32-39):
  * `release_date`: lenient parse, `NaT` on failure (line 34);
  * `year`: the year of the same parse, `NaN` when the parse failed
    (line 35);
  * `genre`: `genre_map.get(x[0], 'Unknown') if x else 'Unknown'` — the
    Python truthiness test `if x` fails exactly on `None` and on the empty
    list (line 36);
  * `poster_url`: CDN prefix plus path when the path is not NA (line 37);
  * `tmdb_url`: detail-page template around the id (line 38). -/
def cleanOne (r : RawRecord) : MovieRecord :=
  let d := parseReleaseDate r.release_date
  { id := r.id
    title := r.title
    release_date := d
    year := d.map Date.year
    vote_average := r.vote_average
    vote_count := r.vote_count
    popularity := r.popularity
    genre :=
      match r.genre_ids with
      | some (g :: _) => genreGet g
      | _ => "Unknown"
    poster_url := r.poster_path.map (fun p => "https://image.tmdb.org/t/p/w200" ++ p)
    tmdb_url := "https://www.themoviedb.org/movie/" ++ toString r.id }

/-- `clean_movies` (`app.py` lines 32-39): the per-row transformation
applied to every row of the frame; no row is ever dropped or reordered. -/
def clean_movies (df : List RawRecord) : List MovieRecord :=
  df.map cleanOne

theorem genreGet_eq_spec (i : Nat) : genreGet i = genreLabelSpec i := by
  unfold genreGet genre_map genreLabelSpec
  repeat rw [apply_ite (fun o : Option String => o.getD "Unknown")]
  rfl

def sampleRawAction : RawRecord :=
  { id := 1, title := some "X", release_date := some "1999-12-31",
    vote_average := 9, vote_count := 3, popularity := 2,
    genre_ids := some [28, 18], poster_path := none }

def sampleRawBadDate : RawRecord :=
  { id := 1, title := some "X", release_date := some "1999-13-31",
    vote_average := 9, vote_count := 3, popularity := 2,
    genre_ids := some [], poster_path := none }

example : (cleanOne sampleRawAction).genre = "Action" := by rfl

example : (cleanOne sampleRawBadDate).release_date = none := by rfl

/-! ## The title search: `Series.str.contains` with its default `regex=True`

`filter_movies` (line 87) runs
`df['title'].str.contains(search_term, case=False, na=False)`.
pandas' `str.contains` treats the pattern as a *regular expression* by
default (`regex=True`), compiled with `re.IGNORECASE` because of
`case=False`; `na=False` makes a null title count as a non-match.  We embed
`re.search` for the fragment of Python regex syntax exercised in this
development: patterns made of literal characters and the metacharacter
`.` (which matches any character except a newline).  Case folding is the
ASCII folding of `Char.toLower`, which agrees with `re.IGNORECASE` on the
ASCII titles and search terms used here. -/

/-- One compiled pattern element: a literal character or the `.`
metacharacter. -/
inductive PatChar where
  | lit (c : Char)
  | dot
deriving Repr, DecidableEq

/-- Compile a pattern string made of literals and `.` into pattern
elements. -/
def compilePat (cs : List Char) : List PatChar :=
  cs.map (fun c => if c = '.' then PatChar.dot else PatChar.lit c)

/-- Whether a pattern element matches one text character, under
`re.IGNORECASE`. -/
def patCharMatches : PatChar → Char → Bool
  | PatChar.lit p, c => p.toLower == c.toLower
  | PatChar.dot, c => c != '\n'

/-- Whether the pattern matches a prefix of the text. -/
def matchesAt : List PatChar → List Char → Bool
  | [], _ => true
  | _ :: _, [] => false
  | p :: ps, c :: cs => patCharMatches p c && matchesAt ps cs

/-- `re.search`: whether the pattern matches starting at some position of
the text. -/
def reSearch : List PatChar → List Char → Bool
  | ps, [] => matchesAt ps []
  | ps, c :: cs => matchesAt ps (c :: cs) || reSearch ps cs

/-- The characters that are metacharacters of Python regular expression
syntax (outside character classes). -/
def isRegexMeta (c : Char) : Bool :=
  c == '.' || c == '^' || c == '$' || c == '*' || c == '+' || c == '?' ||
  c == '\x7b' || c == '\x7d' || c == '[' || c == ']' || c == '\\' ||
  c == '|' || c == '(' || c == ')'

/-- Case-insensitive regex containment test on strings:
`df['title'].str.contains(term, case=False)` for one title. -/
def strContainsCI (term : String) (t : String) : Bool :=
  reSearch (compilePat term.data) t.data

/-- The per-row truth value of
`df['title'].str.contains(search_term, case=False, na=False)`
(`app.py` line 87): a null title is `False` because of `na=False`. -/
def titleMatches (title : Option String) (term : String) : Bool :=
  match title with
  | none => false
  | some t => strContainsCI term t

/-- Lower-case a character list (the model of Python lower-casing for
ASCII). -/
def lowerChars (cs : List Char) : List Char :=
  cs.map Char.toLower

/-- Whether the first list is a prefix of the second (plain character
equality). -/
def prefixMatchesLit : List Char → List Char → Bool
  | [], _ => true
  | _ :: _, [] => false
  | n :: ns, c :: cs => n == c && prefixMatchesLit ns cs

/-- Whether the first list occurs as a contiguous sublist of the second. -/
def subSearchLit : List Char → List Char → Bool
  | ns, [] => prefixMatchesLit ns []
  | ns, c :: cs => prefixMatchesLit ns (c :: cs) || subSearchLit ns cs

/-- Modelled from the spec (§4.3): "retain only records whose title
contains search_term as a substring, case-insensitive" read literally —
case-insensitive *literal substring* containment, with no regex
interpretation.  Stated independently of `strContainsCI` so that their
relationship is a theorem. -/
def specLiteralContainsCI (term : String) (t : String) : Bool :=
  subSearchLit (lowerChars term.data) (lowerChars t.data)

/-- `filter_movies` (`app.py` lines 83-88): an optional genre equality
filter followed by an optional title filter.  `if search_term:` is Python
string truthiness, i.e. the title filter runs iff the term is non-empty. -/
def filter_movies (df : List MovieRecord) (genre_filter : String)
    (search_term : String) : List MovieRecord :=
  let df1 := if genre_filter ≠ "All"
    then df.filter (fun m => m.genre == genre_filter) else df
  if search_term ≠ ""
    then df1.filter (fun m => titleMatches m.title search_term) else df1

example : strContainsCI "spider" "Spider-Man" = true := by rfl
example : strContainsCI "spider" "spider-verse" = true := by rfl
example : strContainsCI "sp.der" "Spider-Man" = true := by rfl
example : specLiteralContainsCI "sp.der" "Spider-Man" = false := by rfl

/-! ## The top-level sort dispatch (`app.py` lines 140-146)

Each branch is `df.sort_values(by=col, ascending=False)`.  pandas puts
rows whose sort key is missing (`NaT`/`NaN`) at the end regardless of
`ascending`, because of the default `na_position='last'`; rows with a
present key are arranged in descending key order.  The relative order of
rows with *equal* keys is implementation-defined in the code (the default
`kind='quicksort'` delegates to numpy's introsort, which pandas documents
as not stable); this model fixes one descending arrangement, and no
theorem below relies on the model's tie order.  The `release_date` and
`vote_average`/`popularity` columns of the cleaned frame can contain
missing values only for `release_date`, so the rating and popularity
branches sort the whole frame. -/

/-- Lexicographic calendar order on dates (the order `pandas.Timestamp`
induces on valid dates). -/
def dateLe (a b : Date) : Bool :=
  a.year < b.year ||
  (a.year == b.year && (a.month < b.month ||
    (a.month == b.month && a.day ≤ b.day)))

/-- Descending comparison on `vote_average`. -/
def byRatingDesc (a b : MovieRecord) : Prop := b.vote_average ≤ a.vote_average

instance : DecidableRel byRatingDesc := fun a b =>
  inferInstanceAs (Decidable (b.vote_average ≤ a.vote_average))

/-- Descending comparison on `popularity`. -/
def byPopularityDesc (a b : MovieRecord) : Prop := b.popularity ≤ a.popularity

instance : DecidableRel byPopularityDesc := fun a b =>
  inferInstanceAs (Decidable (b.popularity ≤ a.popularity))

/-- Descending comparison on the (present) `release_date` key. -/
def byDateDesc (a b : MovieRecord) : Prop :=
  dateLe (b.release_date.getD ⟨0, 0, 0⟩) (a.release_date.getD ⟨0, 0, 0⟩) = true

instance : DecidableRel byDateDesc := fun _ _ =>
  inferInstanceAs (Decidable (_ = true))

/-- `df.sort_values(by="vote_average", ascending=False)`. -/
def sortByRatingDesc (df : List MovieRecord) : List MovieRecord :=
  df.insertionSort byRatingDesc

/-- `df.sort_values(by="popularity", ascending=False)`. -/
def sortByPopularityDesc (df : List MovieRecord) : List MovieRecord :=
  df.insertionSort byPopularityDesc

/-- `df.sort_values(by="release_date", ascending=False)`: rows with a
present date in descending date order, then — because of the default
`na_position='last'` — the rows with a missing date, in their original
relative order. -/
def sortByDateDesc (df : List MovieRecord) : List MovieRecord :=
  (df.filter (fun m => m.release_date.isSome)).insertionSort byDateDesc ++
    df.filter (fun m => m.release_date.isNone)

/-- The sort dispatch of the Top Rated tab (`app.py` lines 140-146),
keyed on the sort selector's string; an unrecognized key leaves the frame
unsorted, as falling through every `elif` does. -/
def apply_sort (sort_by : String) (df : List MovieRecord) : List MovieRecord :=
  if sort_by = "Rating (High → Low)" then sortByRatingDesc df
  else if sort_by = "Popularity (High → Low)" then sortByPopularityDesc df
  else if sort_by = "Release Date (Newest First)" then sortByDateDesc df
  else df

/-! ## Presenter: `show_charts` (`app.py` lines 91-113) and the card grid -/

/-- Descending-count comparison on labelled counts, the order of
`value_counts()`. -/
def byCountDesc (a b : String × Nat) : Prop := b.2 ≤ a.2

instance : DecidableRel byCountDesc := fun a b =>
  inferInstanceAs (Decidable (b.2 ≤ a.2))

instance : IsTotal (String × Nat) byCountDesc :=
  ⟨fun a b => le_total b.2 a.2⟩

instance : IsTrans (String × Nat) byCountDesc :=
  ⟨fun _ _ _ h1 h2 => le_trans h2 h1⟩

/-- `df['year'].value_counts().sort_index()` (`app.py` line 102):
occurrence counts of the present year values, indexed by year in
ascending order.  `value_counts` ignores missing values (`dropna=True`),
so absent years contribute no bar. -/
def year_counts (df : List MovieRecord) : List (Nat × Nat) :=
  (((df.filterMap (fun m => m.year)).dedup).insertionSort (· ≤ ·)).map
    (fun y => (y, df.countP (fun m => m.year == some y)))

/-- `df['genre'].value_counts()` (`app.py` line 108): occurrence counts of
the genre labels, in descending count order.  The relative order of labels
with equal counts is implementation-defined in pandas; the model uses a
stable descending sort of the first-appearance label list, and no theorem
relies on the tie order. -/
def genre_counts (df : List MovieRecord) : List (String × Nat) :=
  (((df.map (fun m => m.genre)).dedup).map
    (fun g => (g, df.countP (fun m => m.genre == g)))).insertionSort byCountDesc

/-- One chart handed to the plotting collaborator: the data-only content
of the three `plotly` figures of `show_charts`. -/
inductive Chart where
  | histogram (values : List Rat) (nbins : Nat)
  | barYears (counts : List (Nat × Nat))
  | barGenres (counts : List (String × Nat))
deriving Repr, DecidableEq

/-- What `show_charts` renders: an optional warning notice and the list of
charts it draws. -/
structure ChartsRender where
  notice : Option String
  charts : List Chart
deriving Repr, DecidableEq

/-- `show_charts` (`app.py` lines 91-113): on an empty frame it emits the
warning and returns before building any figure; otherwise it draws the
ratings histogram (20 bins), the by-year bar chart and the by-genre bar
chart. -/
def show_charts (df : List MovieRecord) : ChartsRender :=
  if df.isEmpty then
    { notice := some "No movies match your filters.", charts := [] }
  else
    { notice := none
      charts := [Chart.histogram (df.map (fun m => m.vote_average)) 20,
                 Chart.barYears (year_counts df),
                 Chart.barGenres (genre_counts df)] }

/-- One rendered movie card (`app.py` lines 62-79), as data: the record
fields the HTML card interpolates.  The poster is `""` when `poster_url`
is falsy, mirroring `movie['poster_url'] if movie['poster_url'] else ""`;
the `:.2f` rating formatting is kept as the raw number. -/
structure Card where
  poster : String
  title : Option String
  release_date : Option Date
  vote_average : Rat
  genre : String
  tmdb_url : String
deriving Repr, DecidableEq

/-- Build the card for one row. -/
def mkCard (m : MovieRecord) : Card :=
  { poster := m.poster_url.getD ""
    title := m.title
    release_date := m.release_date
    vote_average := m.vote_average
    genre := m.genre
    tmdb_url := m.tmdb_url }

/-- `display_movies_with_posters` (`app.py` lines 42-79), as the sequence
of cards it renders: `rows = ceil(len(df)/items_per_row)` row iterations,
each laying out the cards at indices `i*items_per_row + j` for
`j = 0..items_per_row-1`, stopping (`break`) once the index passes the end
of the frame.  The `break` is modelled by skipping out-of-range indices,
which is equivalent because the index grows monotonically within a row. -/
def display_movies_with_posters (df : List MovieRecord)
    (items_per_row : Nat) : List Card :=
  let rows := (df.length + items_per_row - 1) / items_per_row
  ((List.range rows).map (fun i =>
    (List.range items_per_row).filterMap (fun j =>
      (df[i * items_per_row + j]?).map mkCard))).flatten

/-! ## Fetcher: `get_movies` (`app.py` lines 21-29)

The HTTP layer is a parameter: `fetchResults endpoint page` stands for
`requests.get(url).json()['results']` for the page-`page` URL of the
endpoint.  `get_movies` is modelled as returning both the log of page
requests it issues (one `(endpoint, page)` entry per GET) and the
accumulated `all_movies` list, so that "exactly one request per page" is
a statement about the definition. -/

def get_movies (fetchResults : String → Nat → List RawRecord)
    (endpoint : String) (pages : Nat) :
    List (String × Nat) × List RawRecord :=
  (List.range pages).foldl
    (fun st i =>
      (st.1 ++ [(endpoint, i + 1)], st.2 ++ fetchResults endpoint (i + 1)))
    ([], [])

example :
    display_movies_with_posters [] 6 = [] := by rfl
example :
    show_charts [] = { notice := some "No movies match your filters.", charts := [] } := by rfl

/-! ## Sample records used by the witness theorems -/

def mSpider : MovieRecord :=
  { id := 557, title := some "Spider-Man", release_date := some ⟨2002, 5, 3⟩,
    year := some 2002, vote_average := 7, vote_count := 100, popularity := 50,
    genre := "Action", poster_url := none,
    tmdb_url := "https://www.themoviedb.org/movie/557" }

def mVerse : MovieRecord :=
  { id := 324857, title := some "spider-verse", release_date := some ⟨2018, 12, 14⟩,
    year := some 2018, vote_average := 8, vote_count := 200, popularity := 60,
    genre := "Animation", poster_url := none,
    tmdb_url := "https://www.themoviedb.org/movie/324857" }

def mNoTitle : MovieRecord :=
  { id := 7, title := none, release_date := none,
    year := none, vote_average := 5, vote_count := 10, popularity := 1,
    genre := "Drama", poster_url := none,
    tmdb_url := "https://www.themoviedb.org/movie/7" }

/-! ## C1 -/

/-- C1: for a raw record whose `genre_ids` has length ≥ 1, the derived
genre is the fixed 19-entry table's label for the first id only (with
"Unknown" for an id outside the table, which is what `genreLabelSpec`
yields there); for a `None` or empty `genre_ids`, the derived genre is
"Unknown". -/
theorem genre_from_first_id_only (r : RawRecord) :
    (∀ (g : Nat) (rest : List Nat), r.genre_ids = some (g :: rest) →
      (cleanOne r).genre = genreLabelSpec g) ∧
    (r.genre_ids = none ∨ r.genre_ids = some [] →
      (cleanOne r).genre = "Unknown") := by
  constructor
  · intro g rest h
    simp only [cleanOne, h, genreGet_eq_spec]
  · rintro (h | h) <;> simp only [cleanOne, h]

theorem genre_from_first_id_only_witness :
    (cleanOne sampleRawAction).genre = "Action" ∧
    (cleanOne sampleRawBadDate).genre = "Unknown" :=
  ⟨((genre_from_first_id_only sampleRawAction).1 28 [18] rfl).trans rfl,
   (genre_from_first_id_only sampleRawBadDate).2 (Or.inr rfl)⟩

/-! ## C4 -/

/-- C4: a raw record whose release-date string fails to parse (malformed
or absent) is transformed into a record whose `release_date` and `year`
are both absent, and the transformation drops no record: the cleaned frame
has, at every index, exactly the cleaned image of the raw record at that
index. -/
theorem malformed_date_absent_retained (df : List RawRecord) (r : RawRecord)
    (h : parseReleaseDate r.release_date = none) :
    (cleanOne r).release_date = none ∧ (cleanOne r).year = none ∧
    (∀ i : Nat, (clean_movies df)[i]? = Option.map cleanOne df[i]?) := by
  refine ⟨by simp [cleanOne, h], by simp [cleanOne, h], ?_⟩
  intro i
  simp [clean_movies]

theorem malformed_date_absent_retained_witness :
    parseReleaseDate sampleRawBadDate.release_date = none ∧
    (cleanOne sampleRawBadDate).release_date = none ∧
    (cleanOne sampleRawBadDate).year = none ∧
    (clean_movies [sampleRawBadDate])[0]? = some (cleanOne sampleRawBadDate) := by
  have h : parseReleaseDate sampleRawBadDate.release_date = none := by rfl
  obtain ⟨h1, h2, h3⟩ :=
    malformed_date_absent_retained [sampleRawBadDate] sampleRawBadDate h
  exact ⟨h, h1, h2, by rw [h3 0]; rfl⟩

/-! ## C9 -/

/-- C9: the transformer is a pure total per-record map: the output batch
has the same length and order as the input, the record at index `i` of the
output is exactly the cleaned image of the raw record at index `i` (so
every `MovieRecord` originates from exactly one `RawListingRecord`), the
directly-copied fields are preserved, the derived date/year are absent
exactly when date parsing fails, and no other operation introduces an
absent field: the poster URL is present whenever the poster path is, and
genre and detail URL are always-present strings by type. -/
theorem clean_movies_pure_total_map (df : List RawRecord) :
    (clean_movies df).length = df.length ∧
    (∀ i : Nat, (clean_movies df)[i]? = Option.map cleanOne df[i]?) ∧
    (∀ r : RawRecord,
      (cleanOne r).id = r.id ∧
      (cleanOne r).title = r.title ∧
      (cleanOne r).vote_average = r.vote_average ∧
      (cleanOne r).vote_count = r.vote_count ∧
      (cleanOne r).popularity = r.popularity ∧
      ((cleanOne r).release_date = none ↔ parseReleaseDate r.release_date = none) ∧
      ((cleanOne r).year = none ↔ parseReleaseDate r.release_date = none) ∧
      (∀ p : String, r.poster_path = some p →
        (cleanOne r).poster_url = some ("https://image.tmdb.org/t/p/w200" ++ p)) ∧
      (r.poster_path = none → (cleanOne r).poster_url = none)) := by
  refine ⟨by simp [clean_movies], fun i => by simp [clean_movies], fun r => ?_⟩
  refine ⟨rfl, rfl, rfl, rfl, rfl, Iff.rfl, ?_, fun p hp => ?_, fun hp => ?_⟩
  · simp [cleanOne, Option.map_eq_none']
  · simp [cleanOne, hp]
  · simp [cleanOne, hp]

theorem clean_movies_pure_total_map_witness :
    (clean_movies [sampleRawAction]).length = 1 ∧
    (cleanOne sampleRawAction).title = some "X" ∧
    ((cleanOne sampleRawAction).release_date = none ↔
      parseReleaseDate sampleRawAction.release_date = none) := by
  obtain ⟨h1, _, h3⟩ := clean_movies_pure_total_map [sampleRawAction]
  exact ⟨h1.trans rfl, ((h3 sampleRawAction).2.1).trans rfl, (h3 sampleRawAction).2.2.2.2.2.1⟩

/-! ## C7 -/

theorem filter_comm_bool {α : Type} (p q : α → Bool) (l : List α) :
    (l.filter q).filter p = (l.filter p).filter q := by
  rw [List.filter_filter, List.filter_filter]
  exact List.filter_congr (fun a _ => Bool.and_comm _ _)

/-- C7: the genre filter and the title filter are conjunctive and commute.
`filter_movies df g ""` is the genre-only filter and
`filter_movies df "All" s` the title-only filter (the empty search term
and the "All" genre are exactly the "skip this filter" sentinels of
`filter_movies`); running the combined filter equals running title-only
then genre-only, which equals running genre-only then title-only. -/
theorem filters_conjunctive_commute (df : List MovieRecord) (g s : String) :
    filter_movies df g s = filter_movies (filter_movies df "All" s) g "" ∧
    filter_movies (filter_movies df g "") "All" s =
      filter_movies (filter_movies df "All" s) g "" := by
  unfold filter_movies
  by_cases hg : g = "All" <;> by_cases hs : s = "" <;>
    simp only [hg, hs, ne_eq, not_true_eq_false, not_false_eq_true,
      if_true, if_false, ite_true, ite_false, ite_self, and_self]
  all_goals first
    | rfl
    | exact filter_comm_bool _ _ _

/-! ## C6 -/

theorem get_movies_loop_unrolled (fetchResults : String → Nat → List RawRecord)
    (e : String) (l : List Nat) (acc : List (String × Nat) × List RawRecord) :
    l.foldl (fun st i => (st.1 ++ [(e, i + 1)], st.2 ++ fetchResults e (i + 1))) acc =
      (acc.1 ++ l.map (fun i => (e, i + 1)),
       acc.2 ++ (l.map (fun i => fetchResults e (i + 1))).flatten) := by
  induction l generalizing acc with
  | nil => simp
  | cons x xs ih => simp [ih]

/-- C6: for a positive page count `n`, `get_movies` issues exactly `n`
page requests, one for each page number `1..n` in that order, and its
result is the concatenation of the per-page `results` arrays in page
order, with no deduplication (whatever lists the pages return are appended
verbatim). -/
theorem fetch_pages_exact_concat (fetchResults : String → Nat → List RawRecord)
    (endpoint : String) (n : Nat) (_h : 0 < n) :
    (get_movies fetchResults endpoint n).1 =
      (List.range n).map (fun i => (endpoint, i + 1)) ∧
    (get_movies fetchResults endpoint n).1.length = n ∧
    (get_movies fetchResults endpoint n).2 =
      ((List.range n).map (fun i => fetchResults endpoint (i + 1))).flatten := by
  unfold get_movies
  rw [get_movies_loop_unrolled]
  simp

/-- A fetch stub for the witness: page `p` of any endpoint holds one
record with id `p`; pages 2 and 3 deliberately return the same record to
exhibit the absence of deduplication. -/
def wFetch (e : String) (page : Nat) : List RawRecord :=
  if e = "movie/top_rated" && page ≥ 2 then
    [{ id := 99, title := none, release_date := none, vote_average := 0,
       vote_count := 0, popularity := 0, genre_ids := none, poster_path := none }]
  else
    [{ id := page, title := none, release_date := none, vote_average := 0,
       vote_count := 0, popularity := 0, genre_ids := none, poster_path := none }]

theorem fetch_pages_exact_concat_witness :
    0 < 3 ∧
    (get_movies wFetch "movie/top_rated" 3).1 =
      [("movie/top_rated", 1), ("movie/top_rated", 2), ("movie/top_rated", 3)] ∧
    (get_movies wFetch "movie/top_rated" 3).2 =
      wFetch "movie/top_rated" 1 ++ wFetch "movie/top_rated" 2 ++ wFetch "movie/top_rated" 3 := by
  obtain ⟨h1, _, h3⟩ :=
    fetch_pages_exact_concat wFetch "movie/top_rated" 3 (by decide)
  exact ⟨by decide, h1.trans (by rfl), h3.trans (by rfl)⟩

/-! ## C5 -/

/-- C5: whenever the genre and search filters leave an empty frame, the
system takes the no-results path: `show_charts` emits the user-visible
warning and renders zero charts, and the card grid renders zero cards.
Both functions are total, so no exception is raised on this path. -/
theorem empty_filter_no_results (df : List MovieRecord) (g s : String)
    (h : filter_movies df g s = []) :
    show_charts (filter_movies df g s) =
      { notice := some "No movies match your filters.", charts := [] } ∧
    display_movies_with_posters (filter_movies df g s) 6 = [] := by
  rw [h]
  exact ⟨rfl, rfl⟩

theorem empty_filter_no_results_witness :
    filter_movies [mSpider] "Comedy" "" = [] ∧
    show_charts (filter_movies [mSpider] "Comedy" "") =
      { notice := some "No movies match your filters.", charts := [] } ∧
    display_movies_with_posters (filter_movies [mSpider] "Comedy" "") 6 = [] := by
  have h : filter_movies [mSpider] "Comedy" "" = [] := by rfl
  obtain ⟨h1, h2⟩ := empty_filter_no_results [mSpider] "Comedy" "" h
  exact ⟨h, h1, h2⟩

/-! ## C3 -/

theorem matchesAt_lit (p : List Char) (hp : ∀ c ∈ p, isRegexMeta c = false) :
    ∀ t : List Char,
      matchesAt (compilePat p) t = prefixMatchesLit (lowerChars p) (lowerChars t) := by
  induction p with
  | nil =>
    intro t
    cases t <;> rfl
  | cons c cs ih =>
    have hc : ¬c = '.' := by
      intro hdot
      have := hp c (List.mem_cons_self c cs)
      rw [hdot] at this
      simp [isRegexMeta] at this
    have hcs : ∀ d ∈ cs, isRegexMeta d = false := fun d hd =>
      hp d (List.mem_cons_of_mem c hd)
    intro t
    cases t with
    | nil => simp [compilePat, lowerChars, matchesAt, prefixMatchesLit, hc]
    | cons d ds =>
      simp only [compilePat, lowerChars, List.map_cons, matchesAt,
        prefixMatchesLit, if_neg hc, patCharMatches]
      have h2 := ih hcs ds
      simp only [compilePat, lowerChars] at h2
      rw [h2]

theorem reSearch_lit (p : List Char) (hp : ∀ c ∈ p, isRegexMeta c = false) :
    ∀ t : List Char,
      reSearch (compilePat p) t = subSearchLit (lowerChars p) (lowerChars t) := by
  intro t
  induction t with
  | nil =>
    simp only [reSearch, lowerChars, List.map_nil, subSearchLit]
    have := matchesAt_lit p hp []
    simpa [lowerChars] using this
  | cons d ds ih =>
    have h1 := matchesAt_lit p hp (d :: ds)
    simp only [reSearch, subSearchLit, lowerChars, List.map_cons] at *
    rw [h1, ih]

/-- C3 (amended): the title filter treats `search_term` as a
case-insensitive *regular expression* (`str.contains` defaults to
`regex=True`), not as a literal substring.  For search terms containing no
regex metacharacter the two readings agree: the filter retains exactly the
records whose present title contains the term as a case-insensitive
literal substring; a record with an absent title is never retained (for
any non-empty search term, metacharacters or not). -/
theorem title_filter_literal_when_meta_free (df : List MovieRecord)
    (g term : String) (hne : term ≠ "")
    (hlit : ∀ c ∈ term.data, isRegexMeta c = false) :
    filter_movies df g term =
      (filter_movies df g "").filter
        (fun m => match m.title with
          | some t => specLiteralContainsCI term t
          | none => false) ∧
    (∀ m ∈ filter_movies df g term, m.title ≠ none) := by
  constructor
  · unfold filter_movies
    simp only [ne_eq, hne, not_false_eq_true, if_true, not_true_eq_false, if_false]
    apply List.filter_congr
    intro m _
    cases m.title with
    | none => rfl
    | some t =>
      simp only [titleMatches, strContainsCI, specLiteralContainsCI]
      exact reSearch_lit term.data hlit t.data
  · intro m hm
    unfold filter_movies at hm
    simp only [ne_eq, hne, not_false_eq_true, if_true] at hm
    have := List.of_mem_filter hm
    intro hnone
    rw [hnone] at this
    simp [titleMatches] at this

theorem title_filter_literal_witness :
    ("spider" : String) ≠ "" ∧
    (∀ c ∈ ("spider" : String).data, isRegexMeta c = false) ∧
    filter_movies [mSpider, mNoTitle, mVerse] "All" "spider" =
      (filter_movies [mSpider, mNoTitle, mVerse] "All" "").filter
        (fun m => match m.title with
          | some t => specLiteralContainsCI "spider" t
          | none => false) ∧
    filter_movies [mSpider, mNoTitle, mVerse] "All" "spider" = [mSpider, mVerse] := by
  refine ⟨by decide, by decide, ?_, by rfl⟩
  exact (title_filter_literal_when_meta_free [mSpider, mNoTitle, mVerse] "All" "spider"
    (by decide) (by decide)).1

/-- C3 (counterexample to the claim as stated): with the non-empty search
term `"sp.der"`, the filter retains the record titled `"Spider-Man"` —
the `.` is a regex metacharacter matching the letter `i` — even though
`"sp.der"` is not a literal substring of the title under case-insensitive
comparison.  So the set retained is not the set of literal-substring
matches claimed. -/
theorem title_filter_regex_counterexample :
    filter_movies [mSpider] "All" "sp.der" = [mSpider] ∧
    specLiteralContainsCI "sp.der" "Spider-Man" = false := by
  exact ⟨by rfl, by rfl⟩

/-! ## C8 -/

/-- C8: on a non-empty record sequence the presenter emits no warning and
produces the three charts; the year→count mapping is indexed by strictly
ascending years and each of its counts is the number of records with that
year, covering every year that occurs; the genre→count mapping is ordered
by non-increasing count and each of its counts is the number of records
with that genre label, covering every occurring label. -/
theorem charts_counts_ordered (df : List MovieRecord) (h : df ≠ []) :
    (show_charts df).notice = none ∧
    (show_charts df).charts =
      [Chart.histogram (df.map (fun m => m.vote_average)) 20,
       Chart.barYears (year_counts df),
       Chart.barGenres (genre_counts df)] ∧
    ((year_counts df).map Prod.fst).Sorted (· < ·) ∧
    (∀ p ∈ year_counts df, p.2 = df.countP (fun m => m.year == some p.1)) ∧
    (∀ y : Nat, (∃ m ∈ df, m.year = some y) →
      (y, df.countP (fun m => m.year == some y)) ∈ year_counts df) ∧
    (genre_counts df).Sorted byCountDesc ∧
    (∀ p ∈ genre_counts df, p.2 = df.countP (fun m => m.genre == p.1)) ∧
    (∀ m ∈ df, (m.genre, df.countP (fun m2 => m2.genre == m.genre)) ∈ genre_counts df) := by
  have hne : df.isEmpty = false := by
    cases df with
    | nil => exact absurd rfl h
    | cons a l => rfl
  refine ⟨?_, ?_, ?_, ?_, ?_, ?_, ?_, ?_⟩
  · simp [show_charts, hne]
  · simp [show_charts, hne]
  · have hkeys : (year_counts df).map Prod.fst =
        ((df.filterMap (fun m => m.year)).dedup).insertionSort (· ≤ ·) := by
      unfold year_counts
      rw [List.map_map]
      exact List.map_id _
    rw [hkeys]
    refine List.Sorted.lt_of_le (List.sorted_insertionSort _ _) ?_
    exact ((List.perm_insertionSort _ _).nodup_iff).mpr (List.nodup_dedup _)
  · intro p hp
    unfold year_counts at hp
    obtain ⟨y, _, rfl⟩ := List.mem_map.mp hp
    rfl
  · intro y ⟨m, hm, hy⟩
    unfold year_counts
    refine List.mem_map.mpr ⟨y, ?_, rfl⟩
    refine (List.mem_insertionSort _).mpr ?_
    exact List.mem_dedup.mpr (List.mem_filterMap.mpr ⟨m, hm, by rw [hy]⟩)
  · exact List.sorted_insertionSort byCountDesc _
  · intro p hp
    unfold genre_counts at hp
    have := (List.mem_insertionSort _).mp hp
    obtain ⟨g, _, rfl⟩ := List.mem_map.mp this
    rfl
  · intro m hm
    unfold genre_counts
    refine (List.mem_insertionSort _).mpr ?_
    refine List.mem_map.mpr ⟨m.genre, ?_, rfl⟩
    exact List.mem_dedup.mpr (List.mem_map.mpr ⟨m, hm, rfl⟩)

theorem charts_counts_ordered_witness :
    ([mSpider, mVerse, mNoTitle] : List MovieRecord) ≠ [] ∧
    (show_charts [mSpider, mVerse, mNoTitle]).notice = none ∧
    ((year_counts [mSpider, mVerse, mNoTitle]).map Prod.fst).Sorted (· < ·) ∧
    (genre_counts [mSpider, mVerse, mNoTitle]).Sorted byCountDesc := by
  have h : ([mSpider, mVerse, mNoTitle] : List MovieRecord) ≠ [] :=
    List.cons_ne_nil _ _
  obtain ⟨h1, _, h3, _, _, h6, _, _⟩ := charts_counts_ordered [mSpider, mVerse, mNoTitle] h
  exact ⟨h, h1, h3, h6⟩

/-! ## C10 -/

theorem partition_positions {α : Type} (L A B : List α) (p : α → Bool)
    (hL : L = A ++ B)
    (hA : ∀ x ∈ A, p x = true) (hB : ∀ x ∈ B, p x = false)
    (i j : Nat) (hi : i < L.length) (hj : j < L.length)
    (hpi : p (L.get ⟨i, hi⟩) = true)
    (hpj : p (L.get ⟨j, hj⟩) = false) : i < j := by
  subst hL
  rw [List.get_eq_getElem] at hpi hpj
  have hiA : i < A.length := by
    by_contra hcon
    push_neg at hcon
    rw [List.getElem_append_right hcon] at hpi
    rw [hB _ (List.getElem_mem _)] at hpi
    exact Bool.noConfusion hpi
  have hjA : A.length ≤ j := by
    by_contra hcon
    push_neg at hcon
    rw [List.getElem_append_left hcon] at hpj
    rw [hA _ (List.getElem_mem _)] at hpj
    exact Bool.noConfusion hpj
  exact Nat.lt_of_lt_of_le hiA hjA

/-- C10: under the "Release Date (Newest First)" sort, every record whose
release date is absent is placed after every record whose release date is
present (pandas keeps `NaT` keys at the end because of the default
`na_position='last'`, for any `ascending`). -/
theorem date_sort_absent_after_present (df : List MovieRecord)
    (_h1 : ∃ m ∈ df, m.release_date.isSome = true)
    (_h2 : ∃ m ∈ df, m.release_date.isNone = true) :
    ∀ (i j : Nat)
      (hi : i < (apply_sort "Release Date (Newest First)" df).length)
      (hj : j < (apply_sort "Release Date (Newest First)" df).length),
      ((apply_sort "Release Date (Newest First)" df).get ⟨i, hi⟩).release_date.isSome = true →
      ((apply_sort "Release Date (Newest First)" df).get ⟨j, hj⟩).release_date.isNone = true →
      i < j := by
  intro i j hi hj hpi hpj
  have hpj' : (((apply_sort "Release Date (Newest First)" df).get
      ⟨j, hj⟩).release_date).isSome = false := by
    rw [Option.isNone_iff_eq_none] at hpj
    rw [hpj]
    rfl
  have hA : ∀ x ∈ (df.filter (fun m => m.release_date.isSome)).insertionSort byDateDesc,
      (fun m : MovieRecord => m.release_date.isSome) x = true := by
    intro x hx
    exact (List.mem_filter.mp ((@List.mem_insertionSort _ byDateDesc _ _ _).mp hx)).2
  have hB : ∀ x ∈ df.filter (fun m => m.release_date.isNone),
      (fun m : MovieRecord => m.release_date.isSome) x = false := by
    intro x hx
    have hx2 : x.release_date.isNone = true := (List.mem_filter.mp hx).2
    rw [Option.isNone_iff_eq_none] at hx2
    show x.release_date.isSome = false
    rw [hx2]
    rfl
  have hL : apply_sort "Release Date (Newest First)" df =
      (df.filter (fun m => m.release_date.isSome)).insertionSort byDateDesc ++
        df.filter (fun m => m.release_date.isNone) := rfl
  exact partition_positions
    (apply_sort "Release Date (Newest First)" df)
    ((df.filter (fun m => m.release_date.isSome)).insertionSort byDateDesc)
    (df.filter (fun m => m.release_date.isNone))
    (fun m => m.release_date.isSome)
    hL hA hB i j hi hj hpi hpj'

theorem date_sort_absent_after_present_witness :
    (∃ m ∈ ([mNoTitle, mSpider] : List MovieRecord), m.release_date.isSome = true) ∧
    (∃ m ∈ ([mNoTitle, mSpider] : List MovieRecord), m.release_date.isNone = true) ∧
    (0 : Nat) < 1 := by
  have h1 : ∃ m ∈ ([mNoTitle, mSpider] : List MovieRecord), m.release_date.isSome = true :=
    ⟨mSpider, by simp, by rfl⟩
  have h2 : ∃ m ∈ ([mNoTitle, mSpider] : List MovieRecord), m.release_date.isNone = true :=
    ⟨mNoTitle, by simp, by rfl⟩
  have hlen : (apply_sort "Release Date (Newest First)" [mNoTitle, mSpider]).length = 2 := by rfl
  refine ⟨h1, h2, ?_⟩
  exact date_sort_absent_after_present [mNoTitle, mSpider] h1 h2 0 1
    (by rw [hlen]; decide) (by rw [hlen]; decide) (by rfl) (by rfl)
